import Mathlib

/-!
Verification development for the evolutionary prompt-optimization engine of
`scripts/prompt_evolution.py` (with its evaluator delegate `scripts/prompt_analyzer.py`).

The Python code is shallowly embedded: strings are `String`/`List Char`, scores are `ℚ`
(Python floats carrying exact decimal constants), the pseudo-random source
(`random.sample`, `random.randint`, `random.choice`, `random.uniform`) is an explicit
stream of natural-number draws threaded through every function that consumes randomness,
and code that can raise is embedded with `Except`.
-/

/-! ### Python string primitives (embedded over `List Char`) -/

/-- Python whitespace class used by `str.strip` and the regex class `\s`
(space, tab, newline, carriage return, vertical tab, form feed). -/
def pyIsSpace (c : Char) : Bool :=
  c = ' ' || c = '\t' || c = '\n' || c = '\r' || c = '\x0b' || c = '\x0c'

/-- Embedding of Python `str.strip()`: drop whitespace from both ends. -/
def stripL (cs : List Char) : List Char :=
  ((cs.dropWhile pyIsSpace).reverse.dropWhile pyIsSpace).reverse

/-- List-of-characters prefix test (first argument is the pattern). -/
def isPrefixL : List Char → List Char → Bool
  | [], _ => true
  | _ :: _, [] => false
  | p :: ps, c :: cs => p = c && isPrefixL ps cs

/-- Embedding of Python's substring test `sub in s`. -/
def containsL (sub : List Char) : List Char → Bool
  | [] => sub.isEmpty
  | c :: cs => isPrefixL sub (c :: cs) || containsL sub cs

/-- Scanner for `countOcc`: `skip` is the number of characters still covered by the
most recent match (so occurrences are counted without overlap). -/
def countOccGo (sub : List Char) : ℕ → List Char → ℕ
  | _, [] => 0
  | s + 1, _ :: cs => countOccGo sub s cs
  | 0, c :: cs =>
      if isPrefixL sub (c :: cs) then 1 + countOccGo sub (sub.length - 1) cs
      else countOccGo sub 0 cs

/-- Embedding of Python `s.count(sub)` for a nonempty pattern: non-overlapping
occurrences, scanning left to right. -/
def countOcc (sub cs : List Char) : ℕ := countOccGo sub 0 cs

/-- Embedding of Python `str.lower()` (ASCII case fold suffices for the engine's data). -/
def lowerL (cs : List Char) : List Char := cs.map Char.toLower

/-- String-level wrappers. -/
def pyStrip (s : String) : String := String.mk (stripL s.data)

def pyLower (s : String) : String := String.mk (lowerL s.data)

def pyContains (s sub : String) : Bool := containsL sub.data s.data

def pyCount (s sub : String) : ℕ := countOcc sub.data s.data

def pyStartsWith (s pre : String) : Bool := isPrefixL pre.data s.data

/-- Embedding of Python `str.capitalize()`: first character upper-cased, rest lower-cased. -/
def pyCapitalize (s : String) : String :=
  match s.data with
  | [] => ""
  | c :: cs => String.mk (c.toUpper :: lowerL cs)

/-- Embedding of Python `s.split('\n')`. -/
def splitNl : List Char → List (List Char)
  | [] => [[]]
  | c :: cs =>
      match splitNl cs, decide (c = '\n') with
      | r, true => [] :: r
      | [], false => [[c]]
      | h :: t, false => (c :: h) :: t

/-- Embedding of Python `'\n'.join(lines)`. -/
def joinNl : List (List Char) → List Char
  | [] => []
  | [l] => l
  | l :: ls => l ++ '\n' :: joinNl ls

/-- Embedding of Python `list.insert(pos, x)` (appends when `pos` reaches the end). -/
def insertAt (pos : ℕ) (x : α) : List α → List α
  | [] => [x]
  | y :: ys =>
      match pos with
      | 0 => x :: y :: ys
      | p + 1 => y :: insertAt p x ys

/-- Embedding of Python `list.pop(pos)` for an in-range index. -/
def removeAt (pos : ℕ) : List α → List α
  | [] => []
  | y :: ys =>
      match pos with
      | 0 => ys
      | p + 1 => y :: removeAt p ys

/-! ### Pseudo-random source

All of the script's randomness (`random.sample`, `random.randint`, `random.choice`,
`random.uniform`) is modelled by an explicit stream of natural-number draws consumed in
program order; an exhausted stream yields 0. -/

/-- The pseudo-random number source: a stream of raw draws. -/
abbrev Rng : Type := List ℕ

/-- Take one raw draw from the stream. -/
def rngNext : Rng → ℕ × Rng
  | [] => (0, [])
  | n :: rest => (n, rest)

/-- Model of Python `random.sample(pool, k)`: each draw picks one of the remaining
elements (sampling without replacement), in draw order. -/
def pySample : ℕ → List α → Rng → List α × Rng
  | 0, _, rng => ([], rng)
  | _ + 1, [], rng => ([], rng)
  | k + 1, x :: xs, rng =>
      let (d, rng1) := rngNext rng
      let i := d % (x :: xs).length
      let chosen := (x :: xs).getD i x
      let (rest, rng2) := pySample k ((x :: xs).eraseIdx i) rng1
      (chosen :: rest, rng2)

/-- Model of Python `random.randint(a, b)` (both ends inclusive, assumes `a ≤ b`). -/
def pyRandint (a b : ℕ) (rng : Rng) : ℕ × Rng :=
  let (d, rng1) := rngNext rng
  (a + d % (b + 1 - a), rng1)

/-- Model of Python `random.uniform(-0.1, 0.1)`: a draw is mapped into the closed
interval `[-1/10, 1/10]` (step 1/1000); the value is
`(d % 201)/1000 - 1/10 = ((d % 201) - 100)/1000`. -/
def jitterOf (d : ℕ) : ℚ := mkRat (((d % 201 : ℕ) : ℤ) - 100) 1000

/-! ### Score arithmetic

Python float arithmetic on the engine's scores is embedded exactly over `ℚ`.
`Rat.add` from the library is `@[irreducible]`, so the embedding carries its own
kernel-computable operations (`qadd`, `qmulNat`, `qdivNat`), each proved equal to the
corresponding field operation on `ℚ` below the definitions. -/

/-- Rational addition, kernel-computable; equal to `a + b` (`qadd_eq`). -/
def qadd (a b : ℚ) : ℚ := mkRat (a.num * b.den + b.num * a.den) (a.den * b.den)

/-- Multiplication of a rational by a natural, kernel-computable; equal to
`a * n` (`qmulNat_eq`). -/
def qmulNat (a : ℚ) (n : ℕ) : ℚ := mkRat (a.num * n) a.den

/-- Division of a rational by a natural, kernel-computable; equal to `a / n`
(`qdivNat_eq`). -/
def qdivNat (a : ℚ) (n : ℕ) : ℚ := mkRat a.num (a.den * n)

/-- Embedding of Python's two-argument `max` on floats (value-level). -/
def pyMax (a b : ℚ) : ℚ := if b ≤ a then a else b

/-- Embedding of Python's two-argument `min` on floats (value-level). -/
def pyMin (a b : ℚ) : ℚ := if a ≤ b then a else b

/-! ### Run-construction validation (`PromptEvolution.__init__`, lines 92-94) -/

/-- Embedding of the task-description validation in `PromptEvolution.__init__`:
`if not task_description or len(task_description.strip()) < 5: raise ValueError(...)`. -/
def initTaskValidation (taskDescription : String) : Except String Unit :=
  if taskDescription = "" ∨ (stripL taskDescription.data).length < 5 then
    Except.error "Task description is required and must be descriptive"
  else
    Except.ok ()

/-! ### Simulated evaluation (`PromptEvolution._simulate_evaluation`, lines 380-418) -/

/-- Instruction-indicator phrases checked by `_simulate_evaluation`. -/
def instructionIndicators : List String :=
  ["you should", "your task", "please", "follow these", "instructions"]

/-- Configuration-option phrases checked by `_simulate_evaluation`. -/
def configOptions : List String :=
  ["reset", "no quotes", "be concise", "step by step"]

/-- The pre-jitter value accumulated by `_simulate_evaluation`: base 0.5 (`mkRat 1 2`)
plus the title bonus 0.05, instruction-indicator bonus 0.1, example/fenced-block bonus
0.1, paragraph-break bonus 0.05, and 0.02 per recognized configuration option
(the source accumulates with `score +=`; this is the same sum written directly). -/
def simulateEvaluationBase (prompt : String) : ℚ :=
  qadd (qadd (qadd (qadd (qadd (mkRat 1 2)
    (if pyStartsWith (pyStrip prompt) "#" then mkRat 5 100 else 0))
    (if instructionIndicators.any (fun ind => pyContains (pyLower prompt) ind) then
      mkRat 1 10 else 0))
    (if pyContains (pyLower prompt) "example" || pyContains prompt "```" then
      mkRat 1 10 else 0))
    (if 2 ≤ pyCount prompt "\n\n" then mkRat 5 100 else 0))
    (qmulNat (mkRat 2 100) (configOptions.filter (fun opt => pyContains (pyLower prompt) opt)).length)

/-- Embedding of `_simulate_evaluation` with the `random.uniform(-0.1, 0.1)` jitter
as an explicit parameter: bonuses are added to the 0.5 base, the jitter is added, and
the result is clamped to `[0, 1]` (`max(0.0, min(1.0, score))`). -/
def simulateEvaluation (prompt : String) (jitter : ℚ) : ℚ :=
  pyMax 0 (pyMin 1 (qadd (simulateEvaluationBase prompt) jitter))

/-! ### External-judge evaluation (`PromptEvolution._evaluate_with_llm`, lines 432-513) -/

/-- Skip Python `\s*` whitespace, then read the greedy digit run `\d+`; `none` when no
digit follows the whitespace. -/
def digitsAfterSpaces (cs : List Char) : Option ℕ :=
  let rest := cs.dropWhile pyIsSpace
  let digits := rest.takeWhile Char.isDigit
  if digits.isEmpty then none
  else some (digits.foldl (fun acc c => acc * 10 + (c.toNat - '0'.toNat)) 0)

/-- Embedding of `re.search(r"SCORE:\s*(\d+)", result)`: the first position where the
literal `SCORE:` is followed by optional whitespace and at least one digit; returns the
value of the greedy digit run. -/
def findScore : List Char → Option ℕ
  | [] => none
  | c :: cs =>
      if isPrefixL "SCORE:".data (c :: cs) then
        match digitsAfterSpaces ((c :: cs).drop 6) with
        | some n => some n
        | none => findScore cs
      else findScore cs

/-- Embedding of `_evaluate_with_llm`. The external call is abstracted as its outcome
`callResult` (raised error or response text), and the jitter that the fallback
`_simulate_evaluation` would draw is the explicit `jitter` parameter. A response whose
`SCORE:` marker parses to an integer in `[0, 100]` yields `score / 100`; a missing
marker, an out-of-range value, or a raised error falls back to the simulated score of
the same prompt. (The regex digit run is non-negative by construction, so the range
check is `score ≤ 100`.) -/
def evaluateWithLLM (callResult : Except Unit String) (prompt : String) (jitter : ℚ) : ℚ :=
  match callResult with
  | Except.error _ => simulateEvaluation prompt jitter
  | Except.ok result =>
      match findScore result.data with
      | some score =>
          if score ≤ 100 then qdivNat (mkRat (score : ℤ) 1) 100
          else simulateEvaluation prompt jitter
      | none => simulateEvaluation prompt jitter

/-- The outcome of one evaluator invocation as seen by `evaluate_prompt`: either a
score or a raised Python exception. -/
inductive PyError where
  | attributeError
  deriving DecidableEq

/-- Embedding of the strategy dispatch in `PromptEvolution.evaluate_prompt`
(lines 363-378) together with the exception behaviour of each branch:

* `hasLLM` (an LLM client is configured): `_evaluate_with_llm` wraps its call and
  parsing in `try/except` and always returns a score — never raises.
* otherwise, `hasAnalyzer` (`prompt_analyzer` importable): `_evaluate_with_analyzer`
  (line 430) is `return self.prompt_analyzer.evaluate(prompt)` with no `try/except`;
  class `PromptAnalyzer` in `scripts/prompt_analyzer.py` defines no method `evaluate`,
  so this branch raises `AttributeError` and the exception propagates to the caller.
* otherwise the pure `_simulate_evaluation` runs.
-/
def evaluatePromptDispatch (hasLLM hasAnalyzer : Bool) (llmCallResult : Except Unit String)
    (prompt : String) (jitter : ℚ) : Except PyError ℚ :=
  if hasLLM then Except.ok (evaluateWithLLM llmCallResult prompt jitter)
  else if hasAnalyzer then Except.error PyError.attributeError
  else Except.ok (simulateEvaluation prompt jitter)

/-! ### Variant and run configuration data model -/

/-- The prompt-dictionary record built by the engine (`{"id", "prompt", "score",
"generation", "parent", "mutations"}`); scores are initialized to 0 and set by the
evaluation pass. -/
structure Variant where
  id : String
  prompt : String
  score : ℚ
  generation : ℕ
  parent : Option String
  mutations : List String
  deriving DecidableEq, Repr

/-- The constructor arguments of `PromptEvolution` that the evolution loop reads. -/
structure Config where
  initialPrompt : String
  taskDescription : String
  populationSize : ℕ
  maxIterations : ℕ
  deriving DecidableEq, Repr

/-- Identifier given to initial-population members: `f"init-{len(population)}"`. -/
def initId (k : ℕ) : String := "init-" ++ toString k

/-- Identifier given to mutation offspring: `f"gen{self.current_generation}-{len(mutations)}"`
where `len(mutations)` is the position inside the current parent's batch. -/
def mutId (gen k : ℕ) : String := "gen" ++ toString gen ++ "-" ++ toString k

/-- Identifier given to fresh fill-in variants:
`f"gen{self.current_generation}-random-{len(next_generation)}"`. -/
def randId (gen k : ℕ) : String := "gen" ++ toString gen ++ "-random-" ++ toString k

/-! ### Local-transform mutation (`PromptEvolution._create_variation`, lines 231-283) -/

/-- The fixed catalog `MUTATION_STRATEGIES` (8 named strategies). -/
def mutationStrategies : List String :=
  ["add_examples", "refine_instructions", "restructure_prompt", "add_constraints",
   "enhance_clarity", "optimize_length", "improve_output_format", "strengthen_role_definition"]

/-- Markers looked for by the `refine_instructions` branch. -/
def refineMarkers : List String := ["you should", "please", "follow", "instructions"]

/-- The `refine_instructions` inner loop: append ` Be thorough and precise.` to the
first line containing one of the markers (case-insensitive), leave the rest unchanged. -/
def refineInstructionLines : List (List Char) → List (List Char)
  | [] => []
  | l :: ls =>
      if refineMarkers.any (fun m => containsL m.data (lowerL l)) then
        (l ++ " Be thorough and precise.".data) :: ls
      else l :: refineInstructionLines ls

/-- One branch of the mutation `if/elif` chain of `_create_variation`, applied to the
current list of lines (each strategy checks its own length precondition and is a no-op
otherwise; `restructure_prompt`, `add_constraints` and `strengthen_role_definition`
have no branch in the source and are always no-ops). -/
def applyMutation (m : String) (lines : List (List Char)) (rng : Rng) :
    List (List Char) × Rng :=
  if m = "add_examples" then
    if 5 < lines.length then
      let (pos, rng1) := pyRandint (lines.length / 2) (lines.length - 1) rng
      (insertAt pos "Example: Here is a demonstration of how to effectively perform this task.".data lines, rng1)
    else (lines, rng)
  else if m = "refine_instructions" then
    if 3 < lines.length then (refineInstructionLines lines, rng) else (lines, rng)
  else if m = "optimize_length" then
    if 10 < lines.length then
      let (idx, rng1) := pyRandint 2 (lines.length - 2) rng
      (removeAt idx lines, rng1)
    else (lines, rng)
  else if m = "enhance_clarity" then
    (lines ++ ["Note: Be clear, concise, and direct in your response.".data], rng)
  else if m = "improve_output_format" then
    (lines ++ ["```".data, "Format your output as follows:".data, "1. Main response".data,
      "2. Additional details".data, "3. Conclusion".data, "```".data], rng)
  else (lines, rng)

/-- Apply the sampled strategies in sampled order (the `for mutation in mutations` loop). -/
def applyMutationList : List String → List (List Char) → Rng → List (List Char) × Rng
  | [], lines, rng => (lines, rng)
  | m :: ms, lines, rng =>
      let (lines1, rng1) := applyMutation m lines rng
      applyMutationList ms lines1 rng1

/-- Embedding of `_create_variation`: split into lines, sample
`min(3, len(MUTATION_STRATEGIES))` strategies without replacement, apply them in
sampled order, join the lines back. (The sampled strategy names are local to this
function in the source — they are not returned.) -/
def createVariation (prompt : String) (rng : Rng) : String × Rng :=
  let lines := splitNl prompt.data
  let (muts, rng1) := pySample (min 3 mutationStrategies.length) mutationStrategies rng
  let (lines2, rng2) := applyMutationList muts lines rng1
  (String.mk (joinNl lines2), rng2)

/-! ### Template generation (`PromptEvolution._create_basic_prompt`, lines 179-229) -/

/-- First template of `_create_basic_prompt`. -/
def template1 (task : String) : String :=
  "# " ++ pyCapitalize task ++ "\n\n" ++
  "I want you to " ++ pyLower task ++ ". Please follow these guidelines:\n" ++
  "- Be thorough and comprehensive\n" ++
  "- Provide step-by-step explanations\n" ++
  "- Use clear, concise language\n\n" ++
  "```\n" ++
  "Examples of good outputs:\n" ++
  "1. A well-structured response that addresses the request directly\n" ++
  "2. A response that provides sufficient detail and context\n" ++
  "```"

/-- Second template of `_create_basic_prompt`. -/
def template2 (task : String) : String :=
  "# Assistant for " ++ pyCapitalize task ++ "\n\n" ++
  "reset, no quotes, no apologies, be direct\n\n" ++
  "Your task is to " ++ pyLower task ++ ". When doing so:\n" ++
  "- First, understand what is being asked\n" ++
  "- Next, organize your thoughts logically\n" ++
  "- Finally, provide a clear and helpful response\n\n" ++
  "Example output format:\n" ++
  "```\n" ++
  "[Main response to the request]\n" ++
  "[Additional details as needed]\n" ++
  "[Any clarifying information]\n" ++
  "```"

/-- Third template of `_create_basic_prompt`. -/
def template3 (task : String) : String :=
  "# " ++ pyCapitalize task ++ " Specialist\n\n" ++
  "You are a specialist in " ++ pyLower task ++ ". Your goal is to provide expert assistance with this task.\n\n" ++
  "Follow these instructions carefully:\n" ++
  "1. Analyze the request thoroughly\n" ++
  "2. Provide detailed, accurate information\n" ++
  "3. Structure your response in a clear, organized manner\n" ++
  "4. Include examples where helpful\n\n" ++
  "Here\x27s how your response should be structured:\n" ++
  "```\n" ++
  "[Main information]\n" ++
  "[Explanatory details]\n" ++
  "[Examples or illustrations]\n" ++
  "[Conclusion or summary]\n" ++
  "```"

/-- Embedding of `_create_basic_prompt`: `random.choice` between the three templates
built from the task description (or the default task when it is empty). -/
def createBasicPrompt (cfg : Config) (rng : Rng) : String × Rng :=
  let task := if cfg.taskDescription = "" then "Provide a helpful response"
    else cfg.taskDescription
  let templates := [template1 task, template2 task, template3 task]
  let (d, rng1) := rngNext rng
  (templates.getD (d % templates.length) "", rng1)

/-! ### Initial population (`PromptEvolution.generate_initial_population`, lines 134-177,
in the configuration without an LLM client: fill-ins are seed variations when an
initial prompt is supplied, template prompts otherwise) -/

/-- The fill `while len(population) < self.population_size` loop, unrolled by the
number of variants still to add; ids continue from the current population length. -/
def fillInitial (cfg : Config) : ℕ → List Variant → Rng → List Variant × Rng
  | 0, pop, rng => (pop, rng)
  | k + 1, pop, rng =>
      let pick :=
        if cfg.initialPrompt = "" then createBasicPrompt cfg rng
        else createVariation cfg.initialPrompt rng
      let v : Variant :=
        { id := initId pop.length, prompt := pick.1, score := 0, generation := 0,
          parent := none, mutations := ["initial_generation"] }
      fillInitial cfg k (pop ++ [v]) pick.2

/-- Embedding of `generate_initial_population`: the optional seed becomes `init-0`
with no parent and no mutation tags, then fill-ins are added up to the configured
population size. -/
def generateInitialPopulation (cfg : Config) (rng : Rng) : List Variant × Rng :=
  let pop : List Variant :=
    if cfg.initialPrompt = "" then []
    else [{ id := initId 0, prompt := cfg.initialPrompt, score := 0, generation := 0,
            parent := none, mutations := [] }]
  fillInitial cfg (cfg.populationSize - pop.length) pop rng

/-! ### Mutation offspring (`PromptEvolution.generate_mutations`, lines 515-550, in the
configuration where offspring text comes from `_create_variation` — either no LLM client
is configured, or every `_mutate_with_llm` call fails and falls back to it) -/

/-- The `for i in range(num_mutations)` loop of `generate_mutations`: each iteration
produces the offspring text with `_create_variation` and then draws a second,
independent `random.sample` of strategy names which is recorded as the offspring's
`mutations`. `k` counts the iterations still to run and `i` is `len(mutations)`,
the position used in the offspring id. -/
def generateMutationsGo (parent : Variant) (gen : ℕ) : ℕ → ℕ → Rng → List Variant × Rng
  | _, 0, rng => ([], rng)
  | i, k + 1, rng =>
      let mutpick := createVariation parent.prompt rng
      let applied := pySample (min 3 mutationStrategies.length) mutationStrategies mutpick.2
      let v : Variant :=
        { id := mutId gen i, prompt := mutpick.1, score := 0, generation := gen,
          parent := some parent.id, mutations := applied.1 }
      let rest := generateMutationsGo parent gen (i + 1) k applied.2
      (v :: rest.1, rest.2)

/-- Embedding of `generate_mutations(prompt_dict, num_mutations)`. -/
def generateMutations (parent : Variant) (gen num : ℕ) (rng : Rng) : List Variant × Rng :=
  generateMutationsGo parent gen 0 num rng

/-! ### Selection (`PromptEvolution.create_next_generation`, lines 679-723) -/

/-- Insert a variant into a list that is sorted by descending score, after all entries
whose score is at least as large (this is the stable behaviour of Python's
`sorted(..., reverse=True)` for equal keys). -/
def insertDesc (v : Variant) : List Variant → List Variant
  | [] => [v]
  | w :: ws => if v.score ≤ w.score then w :: insertDesc v ws else v :: w :: ws

/-- Embedding of `sorted(self.population, key=lambda x: x["score"], reverse=True)`
(stable descending sort by score). -/
def sortByScoreDesc (pop : List Variant) : List Variant :=
  pop.foldl (fun acc v => insertDesc v acc) []

/-- Offspring generation across all mutation candidates
(the `for prompt_dict in mutation_candidates` loop). -/
def genAllMutations (gen num : ℕ) : List Variant → Rng → List Variant × Rng
  | [], rng => ([], rng)
  | p :: ps, rng =>
      let ms := generateMutations p gen num rng
      let rest := genAllMutations gen num ps ms.2
      (ms.1 ++ rest.1, rest.2)

/-- The fill `while len(next_generation) < self.population_size` loop of
`create_next_generation`, unrolled by the number of variants still to add
(fresh template prompts with no parent, tagged `random_introduction`). -/
def fillRandom (cfg : Config) (gen : ℕ) : ℕ → List Variant → Rng → List Variant × Rng
  | 0, pop, rng => (pop, rng)
  | k + 1, pop, rng =>
      let pick := createBasicPrompt cfg rng
      let v : Variant :=
        { id := randId gen pop.length, prompt := pick.1, score := 0, generation := gen,
          parent := none, mutations := ["random_introduction"] }
      fillRandom cfg gen k (pop ++ [v]) pick.2

/-- Embedding of `create_next_generation`: sort by descending score, retain
`max(1, populationSize // 5)` elites unchanged, generate
`max(1, mutations_needed // len(candidates))` offspring from each of the top
`max(2, populationSize // 2)` candidates, truncate to the population size when over,
fill with fresh template variants when short. `mutations_needed` is Python int
arithmetic, so it is computed in `ℤ` with floor division. -/
def createNextGeneration (cfg : Config) (gen : ℕ) (pop : List Variant) (rng : Rng) :
    List Variant × Rng :=
  let sorted := sortByScoreDesc pop
  let eliteCount := max 1 (cfg.populationSize / 5)
  let elites := sorted.take eliteCount
  let candidates := sorted.take (max 2 (cfg.populationSize / 2))
  let mutationsNeeded : ℤ := (cfg.populationSize : ℤ) - (elites.length : ℤ)
  let perCandidate : ℕ := (max 1 (Int.fdiv mutationsNeeded (candidates.length : ℤ))).toNat
  let offspring := genAllMutations gen perCandidate candidates rng
  let combined := elites ++ offspring.1
  let trimmed := if cfg.populationSize < combined.length then combined.take cfg.populationSize
    else combined
  fillRandom cfg gen (cfg.populationSize - trimmed.length) trimmed offspring.2

/-! ### Generation statistics and run state (`PromptEvolution.evolve`, lines 725-800) -/

/-- One evaluator invocation that always returns a score.  Of the three strategies
`evaluate_prompt` can select once per run, exactly two have this shape: the external
judge (whose call and parsing sit in `try/except` and always produce a score,
`evaluateWithLLM`) and the pure simulated strategy.  The analyzer strategy is *not*
of this type — its every invocation raises (`evaluatePromptDispatch`, and claim C2) —
and is modelled by `FallibleEvaluator`/`analyzerEvaluator` below. -/
abbrev Evaluator : Type := Rng → String → ℚ × Rng

/-- The simulated strategy as used by the engine: one draw feeds
`random.uniform(-0.1, 0.1)`. -/
def simEvaluator : Evaluator := fun rng prompt =>
  let (d, rng1) := rngNext rng
  (simulateEvaluation prompt (jitterOf d), rng1)

/-- An external-judge run in which every call succeeds and the judge answers
`SCORE: <draw>`: one draw per evaluation, parsed by `_evaluate_with_llm`. -/
def judgeEvaluator : Evaluator := fun rng prompt =>
  let (d, rng1) := rngNext rng
  (evaluateWithLLM (Except.ok ("SCORE: " ++ toString d)) prompt 0, rng1)

/-- The per-generation record appended to `evolution_history` (the wall-clock
`timestamp` field carries no engine-relevant information and is omitted). -/
structure GenStats where
  generation : ℕ
  avgScore : ℚ
  maxScore : ℚ
  minScore : ℚ
  bestPromptId : String
  deriving DecidableEq, Repr

/-- `statistics.mean` of the population's scores. -/
def meanScore (pop : List Variant) : ℚ :=
  qdivNat (pop.foldl (fun acc v => qadd acc v.score) 0) pop.length

/-- Python `max(scores)` over the population. -/
def maxScoreOf : List Variant → ℚ
  | [] => 0
  | v :: vs => vs.foldl (fun acc w => pyMax acc w.score) v.score

/-- Python `min(scores)` over the population. -/
def minScoreOf : List Variant → ℚ
  | [] => 0
  | v :: vs => vs.foldl (fun acc w => pyMin acc w.score) v.score

/-- Python `max(self.population, key=lambda x: x["score"])`: the first variant
attaining the maximal score. -/
def firstMaxVariant : List Variant → Option Variant
  | [] => none
  | v :: vs => some (vs.foldl (fun best w => if best.score < w.score then w else best) v)

/-- The engine state threaded through `evolve` (the fields of `PromptEvolution`
mutated by the loop, plus the explicit randomness stream). -/
structure RunState where
  population : List Variant
  bestScore : ℚ
  bestPrompt : Option Variant
  history : List GenStats
  currentGeneration : ℕ
  rng : Rng
  deriving DecidableEq, Repr

/-- The evaluation loop of `evolve` (lines 744-759): each variant whose stored score
equals 0 is evaluated and its score set; the running best is updated when the new
score strictly exceeds it. Returns the updated population, best score, best variant
and randomness stream. -/
def evaluatePass (E : Evaluator) :
    List Variant → ℚ → Option Variant → Rng → List Variant × ℚ × Option Variant × Rng
  | [], best, bp, rng => ([], best, bp, rng)
  | v :: rest, best, bp, rng =>
      if v.score = 0 then
        let s := (E rng v.prompt).1
        let v1 : Variant := { v with score := s }
        let best1 := if best < s then s else best
        let bp1 := if best < s then some v1 else bp
        let r := evaluatePass E rest best1 bp1 (E rng v.prompt).2
        (v1 :: r.1, r.2.1, r.2.2.1, r.2.2.2)
      else
        let r := evaluatePass E rest best bp rng
        (v :: r.1, r.2.1, r.2.2.1, r.2.2.2)

/-- One evaluate-and-record phase of the `evolve` loop body for generation `gen`:
run the evaluation pass, then append the generation's statistics entry
(lines 761-771). -/
def evalRecord (E : Evaluator) (gen : ℕ) (st : RunState) : RunState :=
  let r := evaluatePass E st.population st.bestScore st.bestPrompt st.rng
  let stats : GenStats :=
    { generation := gen, avgScore := meanScore r.1, maxScore := maxScoreOf r.1,
      minScore := minScoreOf r.1,
      bestPromptId := (firstMaxVariant r.1).elim "" Variant.id }
  { population := r.1, bestScore := r.2.1, bestPrompt := r.2.2.1,
    history := st.history ++ [stats], currentGeneration := gen, rng := r.2.2.2 }

/-- One full iteration of the `for iteration in range(self.max_iterations)` loop in
the non-breaking case: evaluate and record generation `iter + 1`, then replace the
population via `create_next_generation` (which reads `self.current_generation`,
i.e. `iter + 1`). -/
def iterationStep (cfg : Config) (E : Evaluator) (iter : ℕ) (st : RunState) : RunState :=
  let st1 := evalRecord E (iter + 1) st
  let next := createNextGeneration cfg (iter + 1) st1.population st1.rng
  { st1 with population := next.1, rng := next.2 }

/-- The state right after `self.population = self.generate_initial_population()`. -/
def initState (cfg : Config) (rng : Rng) : RunState :=
  let gp := generateInitialPopulation cfg rng
  { population := gp.1, bestScore := 0, bestPrompt := none, history := [],
    currentGeneration := 0, rng := gp.2 }

/-- The run state at the start of loop iteration `g` (so `stateAtIter cfg E rng 0` is
the state holding the generation-0 population, and each step applies one full loop
iteration). -/
def stateAtIter (cfg : Config) (E : Evaluator) (rng : Rng) : ℕ → RunState
  | 0 => initState cfg rng
  | g + 1 => iterationStep cfg E g (stateAtIter cfg E rng g)

/-- The engine state at the end of `evolve`'s main loop: the final iteration
evaluates and records generation `max_iterations` and then breaks before building
another population (`if self.current_generation >= self.max_iterations: break`). -/
def evolveFinal (cfg : Config) (E : Evaluator) (rng : Rng) : RunState :=
  if cfg.maxIterations = 0 then initState cfg rng
  else evalRecord E cfg.maxIterations (stateAtIter cfg E rng (cfg.maxIterations - 1))

/-! ### The evolve loop with the exception channel

`evaluate_prompt` can raise (the analyzer strategy always does — see
`evaluatePromptDispatch` and claim C2), and nothing in `evolve` catches it, so the
loop below mirrors `evolve` with the raised exception propagated.  On abort the error
carries the `evolution_history` as it stands — the generation-stats entry is appended
only after the evaluation loop of a generation finishes, so a raise during evaluation
leaves that generation unrecorded. -/

/-- One evaluator invocation that may raise, covering all three strategies of
`evaluate_prompt`. -/
abbrev FallibleEvaluator : Type := Rng → String → Except PyError (ℚ × Rng)

/-- The analyzer-configured strategy (no LLM client, `prompt_analyzer` importable):
per `evaluatePromptDispatch` — `_evaluate_with_analyzer` calls the nonexistent
`PromptAnalyzer.evaluate` with no `try/except` — every invocation raises
`AttributeError`. -/
def analyzerEvaluator : FallibleEvaluator := fun _ _ =>
  Except.error PyError.attributeError

/-- A never-raising strategy (external judge or simulated) seen through the
exception channel. -/
def liftEvaluator (E : Evaluator) : FallibleEvaluator := fun rng prompt =>
  Except.ok (E rng prompt)

/-- The evaluation loop of `evolve` (lines 744-759) with the exception channel:
identical to `evaluatePass`, except that a raised evaluator invocation propagates
immediately. -/
def evaluatePassE (E : FallibleEvaluator) :
    List Variant → ℚ → Option Variant → Rng →
      Except PyError (List Variant × ℚ × Option Variant × Rng)
  | [], best, bp, rng => Except.ok ([], best, bp, rng)
  | v :: rest, best, bp, rng =>
      if v.score = 0 then
        match E rng v.prompt with
        | Except.error e => Except.error e
        | Except.ok sr =>
            let v1 : Variant := { v with score := sr.1 }
            let best1 := if best < sr.1 then sr.1 else best
            let bp1 := if best < sr.1 then some v1 else bp
            match evaluatePassE E rest best1 bp1 sr.2 with
            | Except.error e => Except.error e
            | Except.ok r => Except.ok (v1 :: r.1, r.2.1, r.2.2.1, r.2.2.2)
      else
        match evaluatePassE E rest best bp rng with
        | Except.error e => Except.error e
        | Except.ok r => Except.ok (v :: r.1, r.2.1, r.2.2.1, r.2.2.2)

/-- `evalRecord` with the exception channel.  On abort the error carries
`st.history`: the stats entry of the aborted generation was never appended. -/
def evalRecordE (E : FallibleEvaluator) (gen : ℕ) (st : RunState) :
    Except (List GenStats × PyError) RunState :=
  match evaluatePassE E st.population st.bestScore st.bestPrompt st.rng with
  | Except.error e => Except.error (st.history, e)
  | Except.ok r =>
      let stats : GenStats :=
        { generation := gen, avgScore := meanScore r.1, maxScore := maxScoreOf r.1,
          minScore := minScoreOf r.1,
          bestPromptId := (firstMaxVariant r.1).elim "" Variant.id }
      let st1 : RunState :=
        { population := r.1, bestScore := r.2.1, bestPrompt := r.2.2.1,
          history := st.history ++ [stats], currentGeneration := gen, rng := r.2.2.2 }
      Except.ok st1

/-- `iterationStep` with the exception channel. -/
def iterationStepE (cfg : Config) (E : FallibleEvaluator) (iter : ℕ) (st : RunState) :
    Except (List GenStats × PyError) RunState :=
  match evalRecordE E (iter + 1) st with
  | Except.error he => Except.error he
  | Except.ok st1 =>
      let next := createNextGeneration cfg (iter + 1) st1.population st1.rng
      Except.ok { st1 with population := next.1, rng := next.2 }

/-- `stateAtIter` with the exception channel. -/
def stateAtIterE (cfg : Config) (E : FallibleEvaluator) (rng : Rng) :
    ℕ → Except (List GenStats × PyError) RunState
  | 0 => Except.ok (initState cfg rng)
  | g + 1 =>
      match stateAtIterE cfg E rng g with
      | Except.error he => Except.error he
      | Except.ok st => iterationStepE cfg E g st

/-- `evolveFinal` with the exception channel. -/
def evolveFinalE (cfg : Config) (E : FallibleEvaluator) (rng : Rng) :
    Except (List GenStats × PyError) RunState :=
  if cfg.maxIterations = 0 then Except.ok (initState cfg rng)
  else
    match stateAtIterE cfg E rng (cfg.maxIterations - 1) with
    | Except.error he => Except.error he
    | Except.ok st => evalRecordE E cfg.maxIterations st

/-- The `evolution_history` as it stands at run end — whether `evolve` returned
normally or aborted on a raised evaluation. -/
def finalTraceE (cfg : Config) (E : FallibleEvaluator) (rng : Rng) : List GenStats :=
  match evolveFinalE cfg E rng with
  | Except.error he => he.1
  | Except.ok st => st.history

/-! ### Concrete run configurations and inputs used by claim-level theorems -/

/-- A seeded single-variant run over two generations (external judge configured and
succeeding, mutation calls falling back to local transforms). -/
def cfgSingle : Config :=
  { initialPrompt := "seed", taskDescription := "summarize articles",
    populationSize := 1, maxIterations := 2 }

/-- Judge draw stream: the first evaluation draw is 0 (the judge answers `SCORE: 0`),
every later draw is 50. -/
def rngJudge : Rng := 0 :: List.replicate 20 50

/-- A seeded five-variant run over two generations in simulate mode. -/
def cfgFive : Config :=
  { initialPrompt := "seed", taskDescription := "summarize articles",
    populationSize := 5, maxIterations := 2 }

/-- A parent variant as it looks after the seed was evaluated in simulate mode. -/
def seedParent : Variant :=
  { id := initId 0, prompt := "seed", score := mkRat 2 5, generation := 0,
    parent := none, mutations := [] }

/-- Draw stream on which `_create_variation`'s strategy sample and the subsequently
recorded `random.sample` differ: draws `0,0,0` then `3,0,0`. -/
def rngTwoSamples : Rng := [0, 0, 0, 3, 0, 0]

/-- An unseeded four-variant simulate-mode run over two generations. -/
def cfgNoSeed : Config :=
  { initialPrompt := "", taskDescription := "summarize articles",
    populationSize := 4, maxIterations := 2 }

/-- A variant carrying a nonzero score. -/
def scoredVariant : Variant :=
  { id := initId 0, prompt := "seed", score := mkRat 1 2, generation := 0,
    parent := none, mutations := [] }

/-- A run state holding one already-scored variant. -/
def scoredState : RunState :=
  { population := [scoredVariant], bestScore := mkRat 1 2, bestPrompt := none,
    history := [], currentGeneration := 1, rng := [] }

/-- A one-variant configuration for exercising `create_next_generation`. -/
def cfgTiny : Config :=
  { initialPrompt := "", taskDescription := "summarize articles",
    populationSize := 1, maxIterations := 1 }

/-! ## Bridging lemmas for the kernel-computable score arithmetic -/

theorem qadd_eq (a b : ℚ) : qadd a b = a + b := (Rat.add_def' a b).symm

theorem qmulNat_eq (a : ℚ) (n : ℕ) : qmulNat a n = a * (n : ℚ) := by
  rw [qmulNat, Rat.mkRat_eq_div]
  push_cast
  rw [mul_comm ((a.num : ℚ)), mul_div_assoc, Rat.num_div_den, mul_comm]

theorem qdivNat_eq (a : ℚ) (n : ℕ) : qdivNat a n = a / (n : ℚ) := by
  rcases Nat.eq_zero_or_pos n with h | h
  · subst h; simp [qdivNat]
  · rw [qdivNat, Rat.mkRat_eq_div]
    push_cast
    rw [div_mul_eq_div_div, Rat.num_div_den]

theorem pyMax_eq (a b : ℚ) : pyMax a b = max a b := by
  unfold pyMax
  rw [max_comm, max_def]

theorem pyMin_eq (a b : ℚ) : pyMin a b = min a b := by
  unfold pyMin
  rw [min_def]

/-! ## Claim C1 — run-construction validation -/

/-- Claim C1 counterexample: the task description `"abc"` is non-empty, yet run
construction raises `ValueError` (the validation also rejects any description whose
stripped length is below 5), refuting "for every non-empty task description,
construction succeeds". -/
theorem C1_counterexample :
    "abc" ≠ "" ∧
    initTaskValidation "abc" =
      Except.error "Task description is required and must be descriptive" :=
  ⟨by decide, rfl⟩

/-- Claim C1 as amended: run construction's task validation succeeds exactly when the
whitespace-stripped task description has length at least 5; it fails (raising
`ValueError` before any generation executes) exactly when the description is missing,
empty, or shorter than 5 characters after stripping. -/
theorem C1_amended (td : String) :
    initTaskValidation td = Except.ok () ↔ 5 ≤ (stripL td.data).length := by
  unfold initTaskValidation
  by_cases hc : td = "" ∨ (stripL td.data).length < 5
  · rw [if_pos hc]
    constructor
    · intro h
      simp at h
    · intro h
      rcases hc with h1 | h2
      · subst h1
        exact absurd h (by decide)
      · omega
  · rw [if_neg hc]
    push_neg at hc
    constructor
    · intro _
      have := hc.2
      omega
    · intro _
      rfl

/-! ## Claim C2 — evaluator failures and the analyzer strategy -/

/-- Claim C2 is a code bug: when no LLM client is configured and `prompt_analyzer` is
importable, `evaluate_prompt` dispatches to `_evaluate_with_analyzer`, which calls the
nonexistent method `PromptAnalyzer.evaluate` with no `try/except`; the resulting
`AttributeError` propagates out of the engine for every prompt, instead of being
substituted with the simulated fallback. -/
theorem C2_analyzer_error (callResult : Except Unit String) (prompt : String) (jitter : ℚ) :
    evaluatePromptDispatch false true callResult prompt jitter =
      Except.error PyError.attributeError := rfl

/-! ## Claim C8 — external-judge score parsing and fallback -/

/-- Claim C8: if the judge response contains a `SCORE: <int>` marker whose value is in
`[0, 100]`, `_evaluate_with_llm` returns that value divided by 100; if the marker is
absent, the value exceeds 100 (the regex cannot produce a negative), or the external
call raises, it returns the simulated score of the same prompt instead of failing. -/
theorem C8_judge_score (res prompt : String) (jitter : ℚ) :
    (∀ n : ℕ, findScore res.data = some n → n ≤ 100 →
      evaluateWithLLM (Except.ok res) prompt jitter = (n : ℚ) / 100) ∧
    (findScore res.data = none →
      evaluateWithLLM (Except.ok res) prompt jitter = simulateEvaluation prompt jitter) ∧
    (∀ n : ℕ, findScore res.data = some n → 100 < n →
      evaluateWithLLM (Except.ok res) prompt jitter = simulateEvaluation prompt jitter) ∧
    (∀ e : Unit,
      evaluateWithLLM (Except.error e) prompt jitter = simulateEvaluation prompt jitter) := by
  refine ⟨?_, ?_, ?_, ?_⟩
  · intro n hf hle
    simp only [evaluateWithLLM, hf, if_pos hle, qdivNat_eq, Rat.mkRat_one]
    push_cast
    ring
  · intro hf
    simp only [evaluateWithLLM, hf]
  · intro n hf hgt
    simp only [evaluateWithLLM, hf, if_neg (by omega : ¬ n ≤ 100)]
  · intro e
    rfl

/-- Claim C8 witness: a concrete judge response with marker value 85 yields 85/100,
and a raised call falls back to the simulated score. -/
theorem C8_witness :
    evaluateWithLLM (Except.ok "SCORE: 85\nREASONING: good") "x" 0 = (85 : ℚ) / 100 ∧
    evaluateWithLLM (Except.error ()) "x" 0 = simulateEvaluation "x" 0 :=
  ⟨(C8_judge_score "SCORE: 85\nREASONING: good" "x" 0).1 85 (by decide) (by decide),
   (C8_judge_score "" "x" 0).2.2.2 ()⟩

/-! ## Claim C9 — simulated score of the reference prompt -/

/-- Claim C9: with the jitter fixed at 0, the simulated evaluation of
`"# T\n\nyou should do X\n\n```\nexample\n```"` is at least 0.75 (the computed value
is 0.8: title, instruction-indicator, example and paragraph-break bonuses all fire). -/
theorem C9_reference_score :
    (3 : ℚ) / 4 ≤ simulateEvaluation "# T\n\nyou should do X\n\n```\nexample\n```" 0 := by
  have h : simulateEvaluation "# T\n\nyou should do X\n\n```\nexample\n```" 0 = mkRat 4 5 := by
    decide
  rw [h, Rat.mkRat_eq_div]
  norm_num

/-! ## Claim C10 — range of the simulated evaluator -/

/-- The pre-jitter accumulator of `_simulate_evaluation` is at least the 0.5 base
(every bonus is non-negative). -/
theorem simulateEvaluationBase_ge (p : String) : (1 : ℚ) / 2 ≤ simulateEvaluationBase p := by
  unfold simulateEvaluationBase
  simp only [qadd_eq, qmulNat_eq, Rat.mkRat_eq_div]
  push_cast
  have hc : (0 : ℚ) ≤ 2 / 100 *
      ((configOptions.filter fun opt => pyContains (pyLower p) opt).length : ℚ) := by
    positivity
  split_ifs <;> linarith

/-- Claim C10: for every prompt and every jitter value in `[-1/10, 1/10]`, the
simulated evaluation strategy returns a score in `[2/5, 1]`; in particular it never
returns 0, so in simulate-only runs a stored score of 0 can only mean "not yet
evaluated". -/
theorem C10_simulated_range (p : String) (j : ℚ) (hjlo : -(1 / 10) ≤ j) (hjhi : j ≤ 1 / 10) :
    (2 : ℚ) / 5 ≤ simulateEvaluation p j ∧ simulateEvaluation p j ≤ 1 ∧
      simulateEvaluation p j ≠ 0 := by
  have hb := simulateEvaluationBase_ge p
  unfold simulateEvaluation
  rw [pyMax_eq, pyMin_eq, qadd_eq]
  have hlow : (2 : ℚ) / 5 ≤ min 1 (simulateEvaluationBase p + j) := by
    refine le_min (by norm_num) ?_
    linarith
  have hge : (2 : ℚ) / 5 ≤ max 0 (min 1 (simulateEvaluationBase p + j)) :=
    le_trans hlow (le_max_right 0 _)
  refine ⟨hge, ?_, ?_⟩
  · exact max_le (by norm_num) (min_le_left 1 _)
  · intro h0
    rw [h0] at hge
    norm_num at hge

/-- Claim C10 witness at prompt `"x"` and jitter 0. -/
theorem C10_witness :
    (2 : ℚ) / 5 ≤ simulateEvaluation "x" 0 ∧ simulateEvaluation "x" 0 ≤ 1 ∧
      simulateEvaluation "x" 0 ≠ 0 :=
  C10_simulated_range "x" 0 (by norm_num) (by norm_num)

/-! ## Structural lemmas about the evolution loop -/

theorem fillInitial_length (cfg : Config) :
    ∀ (k : ℕ) (pop : List Variant) (rng : Rng),
      ((fillInitial cfg k pop rng).1).length = pop.length + k := by
  intro k
  induction k with
  | zero => intro pop rng; rfl
  | succ n ih =>
      intro pop rng
      simp only [fillInitial]
      rw [ih]
      simp only [List.length_append, List.length_singleton]
      omega

theorem generateInitialPopulation_length (cfg : Config) (rng : Rng)
    (hps : 1 ≤ cfg.populationSize) :
    ((generateInitialPopulation cfg rng).1).length = cfg.populationSize := by
  simp only [generateInitialPopulation]
  split
  · rw [fillInitial_length]
    simp
  · rw [fillInitial_length]
    simp only [List.length_singleton]
    omega

theorem evaluatePass_length (E : Evaluator) :
    ∀ (pop : List Variant) (best : ℚ) (bp : Option Variant) (rng : Rng),
      ((evaluatePass E pop best bp rng).1).length = pop.length := by
  intro pop
  induction pop with
  | nil => intro best bp rng; rfl
  | cons v rest ih =>
      intro best bp rng
      simp only [evaluatePass]
      split
      · simp only [List.length_cons, ih]
      · simp only [List.length_cons, ih]

theorem fillRandom_length (cfg : Config) (gen : ℕ) :
    ∀ (k : ℕ) (pop : List Variant) (rng : Rng),
      ((fillRandom cfg gen k pop rng).1).length = pop.length + k := by
  intro k
  induction k with
  | zero => intro pop rng; rfl
  | succ n ih =>
      intro pop rng
      simp only [fillRandom]
      rw [ih]
      simp only [List.length_append, List.length_singleton]
      omega

theorem createNextGeneration_length (cfg : Config) (gen : ℕ) (pop : List Variant)
    (rng : Rng) :
    ((createNextGeneration cfg gen pop rng).1).length = cfg.populationSize := by
  simp only [createNextGeneration]
  split
  · rename_i h
    rw [fillRandom_length, List.length_take, min_eq_left (le_of_lt h)]
    omega
  · rename_i h
    rw [fillRandom_length]
    omega

theorem stateAtIter_population_length (cfg : Config) (E : Evaluator) (rng : Rng)
    (hps : 1 ≤ cfg.populationSize) :
    ∀ g, ((stateAtIter cfg E rng g).population).length = cfg.populationSize := by
  intro g
  induction g with
  | zero => exact generateInitialPopulation_length cfg rng hps
  | succ n _ => exact createNextGeneration_length cfg (n + 1) _ _

theorem evalRecord_history (E : Evaluator) (gen : ℕ) (st : RunState) :
    ∃ e : GenStats, (evalRecord E gen st).history = st.history ++ [e] ∧
      e.generation = gen :=
  ⟨_, rfl, rfl⟩

theorem stateAtIter_history_length (cfg : Config) (E : Evaluator) (rng : Rng) :
    ∀ g, ((stateAtIter cfg E rng g).history).length = g := by
  intro g
  induction g with
  | zero => rfl
  | succ n ih =>
      obtain ⟨e, he, _⟩ := evalRecord_history E (n + 1) (stateAtIter cfg E rng n)
      show ((evalRecord E (n + 1) (stateAtIter cfg E rng n)).history).length = n + 1
      rw [he, List.length_append, ih]
      rfl

theorem stateAtIter_history_get (cfg : Config) (E : Evaluator) (rng : Rng) :
    ∀ g i, i < g →
      (((stateAtIter cfg E rng g).history).get? i).map GenStats.generation =
        some (i + 1) := by
  intro g
  induction g with
  | zero => intro i h; omega
  | succ n ih =>
      intro i h
      obtain ⟨e, he, hg⟩ := evalRecord_history E (n + 1) (stateAtIter cfg E rng n)
      show (((evalRecord E (n + 1) (stateAtIter cfg E rng n)).history).get? i).map
        GenStats.generation = some (i + 1)
      rw [he]
      rcases Nat.lt_or_ge i n with hin | hin
      · rw [List.get?_append]
        · exact ih i hin
        · rw [stateAtIter_history_length]
          exact hin
      · have hi : i = n := by omega
        subst hi
        have hlen := stateAtIter_history_length cfg E rng i
        nth_rewrite 2 [hlen.symm]
        rw [List.get?_concat_length]
        simp [hg]

/-! ## Claim C6 — trace length -/

/-- Trace shape of a run whose evaluator strategy never raises, with at least one
variant (so that the Python statistics calls are defined): the final
`evolution_history` contains exactly `max_iterations` entries, one per completed
generation, and the `i`-th entry records generation `i + 1`. -/
theorem C6_trace_length (cfg : Config) (E : Evaluator) (rng : Rng)
    (hps : 1 ≤ cfg.populationSize) :
    ((evolveFinal cfg E rng).history).length = cfg.maxIterations ∧
    ∀ i, i < cfg.maxIterations →
      (((evolveFinal cfg E rng).history).get? i).map GenStats.generation =
        some (i + 1) := by
  unfold evolveFinal
  by_cases h0 : cfg.maxIterations = 0
  · rw [if_pos h0]
    refine ⟨by simp [initState, h0], ?_⟩
    intro i hi
    omega
  · rw [if_neg h0]
    obtain ⟨e, he, hg⟩ :=
      evalRecord_history E cfg.maxIterations (stateAtIter cfg E rng (cfg.maxIterations - 1))
    constructor
    · rw [he, List.length_append, stateAtIter_history_length]
      simp only [List.length_singleton]
      omega
    · intro i hi
      rw [he]
      rcases Nat.lt_or_ge i (cfg.maxIterations - 1) with hin | hin
      · rw [List.get?_append]
        · exact stateAtIter_history_get cfg E rng (cfg.maxIterations - 1) i hin
        · rw [stateAtIter_history_length]
          exact hin
      · have hi2 : i = cfg.maxIterations - 1 := by omega
        subst hi2
        have hlen := stateAtIter_history_length cfg E rng (cfg.maxIterations - 1)
        nth_rewrite 2 [hlen.symm]
        rw [List.get?_concat_length]
        simp [hg]
        omega

theorem evaluatePassE_lift (E : Evaluator) :
    ∀ (pop : List Variant) (best : ℚ) (bp : Option Variant) (rng : Rng),
      evaluatePassE (liftEvaluator E) pop best bp rng =
        Except.ok (evaluatePass E pop best bp rng) := by
  intro pop
  induction pop with
  | nil => intro best bp rng; rfl
  | cons v rest ih =>
      intro best bp rng
      simp only [evaluatePassE, evaluatePass, liftEvaluator]
      split
      · simp only [ih]
      · simp only [ih]

theorem evalRecordE_lift (E : Evaluator) (gen : ℕ) (st : RunState) :
    evalRecordE (liftEvaluator E) gen st = Except.ok (evalRecord E gen st) := by
  simp only [evalRecordE, evaluatePassE_lift]
  rfl

theorem stateAtIterE_lift (cfg : Config) (E : Evaluator) (rng : Rng) :
    ∀ g, stateAtIterE cfg (liftEvaluator E) rng g =
      Except.ok (stateAtIter cfg E rng g) := by
  intro g
  induction g with
  | zero => rfl
  | succ n ih =>
      simp only [stateAtIterE, ih, iterationStepE, evalRecordE_lift, stateAtIter,
        iterationStep]

theorem finalTraceE_lift (cfg : Config) (E : Evaluator) (rng : Rng) :
    finalTraceE cfg (liftEvaluator E) rng = (evolveFinal cfg E rng).history := by
  by_cases h0 : cfg.maxIterations = 0
  · simp [finalTraceE, evolveFinalE, evolveFinal, h0]
  · simp [finalTraceE, evolveFinalE, evolveFinal, h0, stateAtIterE_lift,
      evalRecordE_lift]

/-- Claim C6 counterexample: a run in the analyzer configuration (no LLM client,
`prompt_analyzer` importable) passes construction — the task description is valid —
yet its very first evaluation raises the `AttributeError` of claim C2, which nothing
in `evolve` catches; the run aborts before any trace entry is appended, so the final
trace is empty while the configured maximum is 2 generations.  This refutes "for
every run whose construction succeeds, the trace length equals the configured max
generations". -/
theorem C6_counterexample :
    initTaskValidation cfgNoSeed.taskDescription = Except.ok () ∧
    evolveFinalE cfgNoSeed analyzerEvaluator [] =
      Except.error ([], PyError.attributeError) ∧
    (finalTraceE cfgNoSeed analyzerEvaluator []).length ≠ cfgNoSeed.maxIterations :=
  ⟨rfl, rfl, by decide⟩

/-- Claim C6 as amended: for every run whose construction succeeds, with population
size at least 1, and whose selected evaluator strategy returns a score on every
invocation — the external judge (its call and parsing are wrapped in `try/except`)
and the simulated strategy, but not the analyzer strategy, whose every invocation
raises (claim C2) — the final trace contains exactly one entry per completed
generation: its length equals the configured max generations and the `i`-th entry
records generation `i + 1`. -/
theorem C6_amended (cfg : Config) (E : Evaluator) (rng : Rng)
    (hps : 1 ≤ cfg.populationSize) :
    (finalTraceE cfg (liftEvaluator E) rng).length = cfg.maxIterations ∧
    ∀ i, i < cfg.maxIterations →
      ((finalTraceE cfg (liftEvaluator E) rng).get? i).map GenStats.generation =
        some (i + 1) := by
  rw [finalTraceE_lift]
  exact C6_trace_length cfg E rng hps

/-- Claim C6 amendment witness: the concrete five-variant two-generation simulate run
has a 2-entry history. -/
theorem C6_witness :
    1 ≤ cfgFive.populationSize ∧
    (finalTraceE cfgFive (liftEvaluator simEvaluator) []).length =
      cfgFive.maxIterations :=
  ⟨by decide, (C6_amended cfgFive simEvaluator [] (by decide)).1⟩

/-! ## Claim C7 — exact population size -/

/-- Claim C7: with a configured population size of at least 1, the population holds
exactly that many variants at the start of every generation (generation 0 included),
and every `create_next_generation` result — elites plus offspring after truncation
plus fresh fill — has exactly the configured size. -/
theorem C7_population_size (cfg : Config) (E : Evaluator) (rng : Rng)
    (hps : 1 ≤ cfg.populationSize) :
    (∀ g, ((stateAtIter cfg E rng g).population).length = cfg.populationSize) ∧
    (∀ (gen : ℕ) (pop : List Variant) (r : Rng),
      ((createNextGeneration cfg gen pop r).1).length = cfg.populationSize) :=
  ⟨stateAtIter_population_length cfg E rng hps,
   fun gen pop r => createNextGeneration_length cfg gen pop r⟩

/-- Claim C7 witness: the unseeded four-variant run keeps population size 4 at the
start of generation 2. -/
theorem C7_witness :
    1 ≤ cfgNoSeed.populationSize ∧
    ((stateAtIter cfgNoSeed simEvaluator [] 2).population).length =
      cfgNoSeed.populationSize :=
  ⟨by decide, (C7_population_size cfgNoSeed simEvaluator [] (by decide)).1 2⟩

/-! ## Per-variant score immutability and membership lemmas -/

theorem evaluatePass_get (E : Evaluator) :
    ∀ (pop : List Variant) (best : ℚ) (bp : Option Variant) (rng : Rng) (i : ℕ)
      (v : Variant), pop.get? i = some v → v.score ≠ 0 →
      ((evaluatePass E pop best bp rng).1).get? i = some v := by
  intro pop
  induction pop with
  | nil =>
      intro best bp rng i v h _
      simp at h
  | cons w rest ih =>
      intro best bp rng i v h hnz
      cases i with
      | zero =>
          rw [List.get?_cons_zero, Option.some_inj] at h
          subst h
          simp only [evaluatePass]
          rw [if_neg hnz]
          rfl
      | succ j =>
          rw [List.get?_cons_succ] at h
          simp only [evaluatePass]
          split
          · exact ih _ _ _ j v h hnz
          · exact ih _ _ _ j v h hnz

theorem mem_insertDesc (a v : Variant) :
    ∀ l : List Variant, a ∈ insertDesc v l ↔ a = v ∨ a ∈ l := by
  intro l
  induction l with
  | nil => simp [insertDesc]
  | cons w ws ih =>
      simp only [insertDesc]
      split
      · simp only [List.mem_cons, ih]
        tauto
      · simp only [List.mem_cons]

theorem mem_sortByScoreDesc (a : Variant) (pop : List Variant) :
    a ∈ sortByScoreDesc pop ↔ a ∈ pop := by
  have key : ∀ (l acc : List Variant),
      a ∈ l.foldl (fun acc v => insertDesc v acc) acc ↔ a ∈ acc ∨ a ∈ l := by
    intro l
    induction l with
    | nil => intro acc; simp
    | cons p ps ih =>
        intro acc
        rw [List.foldl_cons, ih, mem_insertDesc]
        simp only [List.mem_cons]
        tauto
  rw [sortByScoreDesc, key]
  simp

theorem generateMutationsGo_score (parent : Variant) (gen : ℕ) :
    ∀ (k i : ℕ) (rng : Rng) (v : Variant),
      v ∈ ((generateMutationsGo parent gen i k rng).1) → v.score = 0 := by
  intro k
  induction k with
  | zero =>
      intro i rng v h
      simp [generateMutationsGo] at h
  | succ n ih =>
      intro i rng v h
      simp only [generateMutationsGo] at h
      rcases List.mem_cons.mp h with h1 | h2
      · rw [h1]
      · exact ih (i + 1) _ v h2

theorem genAllMutations_score (gen num : ℕ) :
    ∀ (cands : List Variant) (rng : Rng) (v : Variant),
      v ∈ ((genAllMutations gen num cands rng).1) → v.score = 0 := by
  intro cands
  induction cands with
  | nil =>
      intro rng v h
      simp [genAllMutations] at h
  | cons p ps ih =>
      intro rng v h
      simp only [genAllMutations] at h
      rcases List.mem_append.mp h with h1 | h2
      · exact generateMutationsGo_score p gen num 0 _ v h1
      · exact ih _ v h2

theorem fillRandom_mem (cfg : Config) (gen : ℕ) :
    ∀ (k : ℕ) (pop : List Variant) (rng : Rng) (v : Variant),
      v ∈ ((fillRandom cfg gen k pop rng).1) → v ∈ pop ∨ v.score = 0 := by
  intro k
  induction k with
  | zero =>
      intro pop rng v h
      exact Or.inl h
  | succ n ih =>
      intro pop rng v h
      simp only [fillRandom] at h
      rcases ih _ _ v h with h1 | h2
      · rcases List.mem_append.mp h1 with h3 | h4
        · exact Or.inl h3
        · right
          rw [List.mem_singleton.mp h4]
      · exact Or.inr h2

theorem mem_of_mem_trimmed {c : Prop} [Decidable c] {v : Variant} {n : ℕ}
    {l1 l2 : List Variant} (h : v ∈ if c then (l1 ++ l2).take n else l1 ++ l2) :
    v ∈ l1 ∨ v ∈ l2 := by
  split at h
  · exact List.mem_append.mp (List.take_subset _ _ h)
  · exact List.mem_append.mp h

theorem createNextGeneration_mem (cfg : Config) (gen : ℕ) (pop : List Variant)
    (rng : Rng) (v : Variant) (hv : v ∈ ((createNextGeneration cfg gen pop rng).1))
    (hnz : v.score ≠ 0) : v ∈ pop := by
  simp only [createNextGeneration] at hv
  rcases fillRandom_mem cfg gen _ _ _ v hv with h1 | h2
  · rcases mem_of_mem_trimmed h1 with h4 | h5
    · exact (mem_sortByScoreDesc v pop).mp (List.take_subset _ _ h4)
    · exact absurd (genAllMutations_score gen _ _ _ v h5) hnz
  · exact absurd h2 hnz

/-! ## Claim C3 — evaluate-exactly-once and score immutability -/

/-- Claim C3 counterexample: in the seeded single-variant run with an external judge
whose first answer is `SCORE: 0`, the variant `init-0` is scored 0 by its first
evaluation (generation 1), is elite-retained, and — because re-evaluation is guarded by
`score == 0` — is evaluated again in generation 2 where the judge answers `SCORE: 50`,
leaving its score at 1/2. Its score was therefore computed twice and changed after
first being set, refuting "the Evaluator is invoked exactly once per Variant, for every
score value the Evaluator can return". -/
theorem C3_counterexample :
    (((evalRecord judgeEvaluator 1 (stateAtIter cfgSingle judgeEvaluator rngJudge 0)).population).map
        (fun v => (v.id, v.score)) = [(initId 0, 0)]) ∧
    (((evolveFinal cfgSingle judgeEvaluator rngJudge).population).map
        (fun v => (v.id, v.score)) = [(initId 0, mkRat 1 2)]) := by
  decide

/-- Claim C3 as amended: a Variant is re-evaluated only while its stored score equals
0 (the engine's "not yet scored" sentinel). Every Variant whose stored score is nonzero
is passed through the evaluation loop unchanged (same record, same position), and every
Variant carried into the next generation with a nonzero score — the elites — is an
unchanged member of the previous population; hence nonzero scores are set once and are
immutable for the rest of the run. -/
theorem C3_amended :
    (∀ (E : Evaluator) (gen : ℕ) (st : RunState) (i : ℕ) (v : Variant),
      st.population.get? i = some v → v.score ≠ 0 →
      ((evalRecord E gen st).population).get? i = some v) ∧
    (∀ (cfg : Config) (gen : ℕ) (pop : List Variant) (rng : Rng) (v : Variant),
      v ∈ ((createNextGeneration cfg gen pop rng).1) → v.score ≠ 0 → v ∈ pop) := by
  constructor
  · intro E gen st i v h hnz
    exact evaluatePass_get E st.population st.bestScore st.bestPrompt st.rng i v h hnz
  · intro cfg gen pop rng v hv hnz
    exact createNextGeneration_mem cfg gen pop rng v hv hnz

/-- Claim C3 amendment witness: a concrete already-scored variant survives an
evaluation pass unchanged, and survives selection as an elite member of the old
population. -/
theorem C3_amended_witness :
    ((evalRecord simEvaluator 2 scoredState).population).get? 0 = some scoredVariant ∧
    scoredVariant ∈ [scoredVariant] :=
  ⟨C3_amended.1 simEvaluator 2 scoredState 0 scoredVariant rfl (by decide),
   C3_amended.2 cfgTiny 1 [scoredVariant] [] scoredVariant (by decide) (by decide)⟩

/-! ## Claim C4 — id uniqueness across the run -/

/-- Claim C4 counterexample: in the seeded five-variant simulate run, the population at
the start of generation 2 contains two distinct offspring (different `parent` fields,
positions 1 and 3) that share the id `gen1-0` — `generate_mutations` numbers offspring
by their position inside a single parent's batch, so batches of different parents in
the same generation reuse the same ids. -/
theorem C4_counterexample :
    (((stateAtIter cfgFive simEvaluator [] 1).population.get? 1).map
        (fun v => (v.id, v.parent)) = some (mutId 1 0, some (initId 0))) ∧
    (((stateAtIter cfgFive simEvaluator [] 1).population.get? 3).map
        (fun v => (v.id, v.parent)) = some (mutId 1 0, some (initId 1))) := by
  decide

/-- Claim C4 as amended: a mutation offspring's id is `gen<g>-<position>` — it is a
function of the generation index and the position inside its parent's batch only,
independent of the parent and of the randomness; ids are therefore unique within one
parent's batch, but offspring of different parents in the same generation share them. -/
theorem C4_amended (parent : Variant) (gen : ℕ) :
    ∀ (n s : ℕ) (rng : Rng) (i : ℕ), i < n →
      (((generateMutationsGo parent gen s n rng).1).get? i).map Variant.id =
        some (mutId gen (s + i)) := by
  intro n
  induction n with
  | zero =>
      intro s rng i h
      omega
  | succ k ih =>
      intro s rng i h
      cases i with
      | zero => rfl
      | succ j =>
          have h2 : j < k := by omega
          simp only [generateMutationsGo, List.get?_cons_succ]
          rw [show s + (j + 1) = s + 1 + j by omega]
          exact ih (s + 1) _ j h2

/-- Claim C4 amendment witness: the first offspring of a concrete batch carries id
`gen1-0`. -/
theorem C4_amended_witness :
    (((generateMutationsGo seedParent 1 0 1 []).1).get? 0).map Variant.id =
      some (mutId 1 0) :=
  C4_amended seedParent 1 1 0 [] 0 (by decide)

/-! ## Claim C5 — recorded mutation tags -/

/-- Claim C5 is a code bug: on the draw stream `rngTwoSamples`, `_create_variation`
samples and applies `[add_examples, refine_instructions, restructure_prompt]` (all
no-ops on the one-line parent prompt, so the text stays `"seed"`), but the offspring's
recorded `mutations` is the result of a second, independent `random.sample` —
`[add_constraints, add_examples, refine_instructions]` — which even names a strategy
that was never sampled for the text. The comment at line 535 ("Record which mutation
strategies were applied") is contradicted by the behaviour. The second conjunct is the
strategy sample that `createVariation` draws first from the same stream. -/
theorem C5_tags_mismatch :
    ((generateMutations seedParent 1 1 rngTwoSamples).1.map Variant.mutations =
      [["add_constraints", "add_examples", "refine_instructions"]]) ∧
    ((pySample (min 3 mutationStrategies.length) mutationStrategies rngTwoSamples).1 =
      ["add_examples", "refine_instructions", "restructure_prompt"]) ∧
    ((generateMutations seedParent 1 1 rngTwoSamples).1.map Variant.prompt = ["seed"]) := by
  decide
